import Mathlib

/-!
# Verification of the BAGR-Backend authentication core

Shallow embedding of the Go authentication subsystem of BAGR-Backend:

* `internal/auth/service.go` — `AuthService` (register / login / verify /
  forgot / reset), `PasswordService` (strength policy, bcrypt wrapper,
  reset-token generator);
* `internal/auth/jwt.go` — `JWTService` (token pair issuance and validation);
* `internal/auth/handlers.go` — `isValidRole`, `updateUserProfile`;
* `internal/models/user.go` — roles, statuses, request/response shapes.

Conventions of the embedding:

* time (`time.Time`) is a `Nat` count of seconds; `time.Duration` constants
  become second counts (`1 * time.Hour` = 3600, `24 * time.Hour` = 86400);
* the SQL store is an explicit `DB` state (lists of rows) threaded through
  each operation; `QueryRow ... WHERE p` is `List.find?`, `sql.ErrNoRows`
  is `none`;
* fallible Go functions return `Except`;
* external cryptographic primitives (bcrypt, HMAC-SHA256) are modelled
  symbolically, per the collaborator contracts the spec states for them:
  a digest/signature is the pair of the key material and the signed data,
  so that verification succeeds exactly when both match;
* sources of nondeterminism (bcrypt's salt, the generated random token,
  the sampled clock, the success of an outbound email) are explicit
  parameters of the operations that consume them.
-/

deriving instance DecidableEq for Except

namespace BAGR

/-! ## Enumerations (internal/models/user.go) -/

/-- Embeds `models.UserRole` — the full enumeration, legacy `buyer` included. -/
inductive UserRole
  | admin
  | artist
  | buyer
  | moderator
  | producer
  | fan
deriving DecidableEq, Repr

/-- Embeds `models.UserStatus`. -/
inductive UserStatus
  | active
  | inactive
  | suspended
deriving DecidableEq, Repr

/-- The constant list block under `type UserRole string` in
`internal/models/user.go`: every declared `UserRole` value. -/
def userRoleValues : List UserRole :=
  [.admin, .artist, .buyer, .moderator, .producer, .fan]

/-- The `binding:"required,oneof=admin artist buyer moderator producer fan"`
tag on `CreateUserRequest.Role`: the roles the request binding admits. -/
def createUserRequestRoleOneOf : List UserRole :=
  [.admin, .artist, .buyer, .moderator, .producer, .fan]

/-! ## PasswordService (internal/auth/service.go) -/

/-- The distinct error produced by each rule of
`PasswordService.ValidatePassword`. -/
inductive PasswordErr
  | tooShort        -- "password must be at least 8 characters long"
  | noUpper         -- "password must contain at least one uppercase letter"
  | noLower         -- "password must contain at least one lowercase letter"
  | noDigit         -- "password must contain at least one digit"
  | noSpecial       -- "password must contain at least one special character"
  | commonPassword  -- "password is too common, ..."
deriving DecidableEq, Repr

/-- Embeds `PasswordService` — the strength-policy configuration struct. -/
structure PasswordService where
  minLength : Nat
  requireUpper : Bool
  requireLower : Bool
  requireDigit : Bool
  requireSpecial : Bool
deriving DecidableEq, Repr

/-- Embeds `NewPasswordService`: min length 8, upper/lower/digit required,
special characters not required. -/
def NewPasswordService : PasswordService :=
  { minLength := 8
    requireUpper := true
    requireLower := true
    requireDigit := true
    requireSpecial := false }

/-- Go's `len(password)`: the UTF-8 byte length of the string (not the
number of characters/runes). -/
def goLen (s : String) : Nat := s.utf8ByteSize

/-- Embeds `hasUpperCase`: `regexp.MatchString("[A-Z]", password)` — some rune of
the string is an ASCII uppercase letter. -/
def hasUpperCase (password : String) : Bool :=
  password.toList.any fun c => 'A' ≤ c && c ≤ 'Z'

/-- Embeds `hasLowerCase`: `regexp.MatchString("[a-z]", password)`. -/
def hasLowerCase (password : String) : Bool :=
  password.toList.any fun c => 'a' ≤ c && c ≤ 'z'

/-- Embeds `hasDigit`: `regexp.MatchString("[0-9]", password)`. -/
def hasDigit (password : String) : Bool :=
  password.toList.any fun c => '0' ≤ c && c ≤ '9'

/-- The character class of the `hasSpecialChar` regex, written out; the
brace, apostrophe, quote and backslash members are given by code point. -/
def specialChars : List Char :=
  "!@#$%^&*()_+-=[]".toList ++
    [Char.ofNat 123, Char.ofNat 125] ++ ";".toList ++
    [Char.ofNat 39] ++ ":".toList ++
    [Char.ofNat 34, Char.ofNat 92] ++ "|,.<>/?".toList

/-- Embeds `hasSpecialChar` (dead for the result under `NewPasswordService`,
whose `requireSpecial` is false; kept for fidelity). -/
def hasSpecialChar (password : String) : Bool :=
  password.toList.any fun c => specialChars.contains c

/-- Embeds `strings.ToLower`, restricted to the ASCII mapping (sufficient for
every comparison against the pure-ASCII denylist). -/
def goToLower (s : String) : String :=
  String.mk (s.toList.map Char.toLower)

/-- The fixed denylist of `isCommonPassword` (all entries lowercase). -/
def commonPasswords : List String :=
  ["password", "123456", "123456789", "qwerty", "abc123",
   "password123", "admin", "letmein", "welcome", "monkey",
   "1234567890", "password1", "qwerty123", "dragon", "master",
   "hello", "freedom", "whatever", "qazwsx", "trustno1"]

/-- Embeds `isCommonPassword`: lowercase the candidate and compare with each list
entry. (`strings.ToLower` and `String.toLower` agree on every comparison
that can reach this check: the entries are pure ASCII.) -/
def isCommonPassword (password : String) : Bool :=
  commonPasswords.contains (goToLower password)

/-- Embeds `PasswordService.ValidatePassword`, rule for rule in source order:
length, uppercase, lowercase, digit, special (disabled), denylist. -/
def ValidatePassword (p : PasswordService) (password : String) :
    Except PasswordErr Unit :=
  if goLen password < p.minLength then .error .tooShort
  else if p.requireUpper && !hasUpperCase password then .error .noUpper
  else if p.requireLower && !hasLowerCase password then .error .noLower
  else if p.requireDigit && !hasDigit password then .error .noDigit
  else if p.requireSpecial && !hasSpecialChar password then .error .noSpecial
  else if isCommonPassword password then .error .commonPassword
  else .ok ()

/-! ### bcrypt, modelled symbolically

Modelled from the spec: `golang.org/x/crypto/bcrypt` is an external
collaborator; §4.1 states its contract — a salted one-way hash whose
`Verify` is a comparison delegated to the hashing primitive. The digest is
represented symbolically as the (salt, preimage) pair, so that comparison
against a candidate succeeds exactly when the candidate equals the
preimage hashed under the same salt. -/

/-- The symbolic bcrypt digest of `password` under `salt`. -/
def bcryptDigest (salt : Nat) (password : String) : Nat × String :=
  (salt, password)

/-- A stored bcrypt hash: the salt (recoverable from the hash string in
real bcrypt) together with the digest. -/
structure BcryptHash where
  salt : Nat
  digest : Nat × String
deriving DecidableEq, Repr

/-- Embeds `PasswordService.HashPassword`: validate strength, then
`bcrypt.GenerateFromPassword`. The fresh salt bcrypt draws is the explicit
`salt` argument. -/
def HashPassword (p : PasswordService) (salt : Nat) (password : String) :
    Except PasswordErr BcryptHash :=
  match ValidatePassword p password with
  | .error e => .error e
  | .ok _ => .ok { salt := salt, digest := bcryptDigest salt password }

/-- Embeds `PasswordService.VerifyPassword`:
`bcrypt.CompareHashAndPassword(hashed, candidate)` — re-derive the digest
from the stored salt and compare. `true` is nil error. -/
def VerifyPassword (hashed : BcryptHash) (password : String) : Bool :=
  hashed.digest == bcryptDigest hashed.salt password

/-! ### GenerateResetToken (internal/auth/service.go) -/

/-- The `charset` constant of `generateRandomString`. -/
def charset : String :=
  "abcdefghijklmnopqrstuvwxyzABCDEFGHIJKLMNOPQRSTUVWXYZ0123456789"

/-- Embeds `randomInt(max)`: `int(time.Now().UnixNano()) % max`, with the
sampled nanosecond clock value passed explicitly. -/
def randomInt (unixNano : Nat) (max : Nat) : Nat :=
  unixNano % max

/-- Embeds `generateRandomString(length)`: one `randomInt` clock sample per output
character; `clock i` is what `time.Now().UnixNano()` returned at the i-th
iteration. -/
def generateRandomString (length : Nat) (clock : Nat → Nat) : String :=
  String.mk ((List.range length).map fun i =>
    charset.toList.getD (randomInt (clock i) charset.length) 'a')

/-- Embeds `PasswordService.GenerateResetToken`: `generateRandomString(32)`,
a deterministic function of the sampled clock (the source comments flag
this as non-cryptographic). -/
def GenerateResetToken (clock : Nat → Nat) : String :=
  generateRandomString 32 clock

/-! ## JWTService (internal/auth/jwt.go)

HMAC-SHA256 is modelled symbolically: `hmacSign secret claims` is the
(secret, claims) pair, so a signature verifies against a secret exactly
when it was produced with that secret over those claims. -/

/-- The `Claims` struct: custom claims plus the `jwt.RegisteredClaims`
fields the service sets. -/
structure Claims where
  userID : Nat
  email : String
  role : UserRole
  tokenType : String
  expiresAt : Nat
  issuedAt : Nat
  notBefore : Nat
  issuer : String
  subject : String
deriving DecidableEq, Repr

/-- Symbolic `HMAC-SHA256(secret, payload)`. -/
def hmacSign (secret : String) (c : Claims) : String × Claims :=
  (secret, c)

/-- A serialized signed JWT: its claims and its signature. -/
structure SignedToken where
  claims : Claims
  sig : String × Claims
deriving DecidableEq, Repr

/-- Embeds `JWTService`. -/
structure JWTService where
  accessSecret : String
  refreshSecret : String
  accessExpiry : Nat
  refreshExpiry : Nat
deriving DecidableEq, Repr

/-- Embeds `NewJWTService`: 24-hour access expiry, 7-day refresh expiry. -/
def NewJWTService (accessSecret refreshSecret : String) : JWTService :=
  { accessSecret := accessSecret
    refreshSecret := refreshSecret
    accessExpiry := 24 * 3600
    refreshExpiry := 7 * 24 * 3600 }

/-- The errors of `validateToken`, in the order the code can raise them. -/
inductive TokenErr
  | parseFailed  -- "failed to parse token: ..." (bad signature / malformed)
  | invalidToken -- "invalid token"
  | expired      -- "token has expired"
  | wrongType    -- "invalid token type: expected %s, got %s"
deriving DecidableEq, Repr

/-- Embeds `JWTService.validateToken`: parse and check the signature against the
given secret, then the expiry (`claims.ExpiresAt.Time.Before(time.Now())`,
i.e. strictly before `now`), then the `token_type` discriminator. -/
def validateToken (tok : SignedToken) (secret : String)
    (expectedType : String) (now : Nat) : Except TokenErr Claims :=
  if tok.sig ≠ hmacSign secret tok.claims then .error .parseFailed
  else if tok.claims.expiresAt < now then .error .expired
  else if tok.claims.tokenType ≠ expectedType then .error .wrongType
  else .ok tok.claims

/-- Embeds `JWTService.ValidateAccessToken`. -/
def ValidateAccessToken (j : JWTService) (tok : SignedToken) (now : Nat) :
    Except TokenErr Claims :=
  validateToken tok j.accessSecret "access" now

/-- Embeds `JWTService.ValidateRefreshToken`. -/
def ValidateRefreshToken (j : JWTService) (tok : SignedToken) (now : Nat) :
    Except TokenErr Claims :=
  validateToken tok j.refreshSecret "refresh" now

/-! ## Persisted data model (internal/models/user.go, migrations) -/

/-- The value bound to a timestamp column: either a real timestamp, or —
as `updateUserProfile` does for `updated_at` — a literal string passed
where a timestamp parameter is expected. -/
inductive SqlTime
  | at (t : Nat)
  | text (s : String)
deriving DecidableEq, Repr

/-- Embeds `models.User` — the persisted users row. -/
structure User where
  id : Nat
  email : String
  username : String
  firstName : String
  lastName : String
  passwordHash : BcryptHash
  role : UserRole
  status : UserStatus
  emailVerified : Bool
  verificationToken : Option String
  resetToken : Option String
  resetTokenExpires : Option Nat
  lastLoginAt : Option Nat
  createdAt : Nat
  updatedAt : SqlTime
deriving DecidableEq, Repr

/-- Embeds `models.UserResponse` — the password-free view `ToResponse` builds. -/
structure UserResponse where
  id : Nat
  email : String
  username : String
  firstName : String
  lastName : String
  role : UserRole
  status : UserStatus
  emailVerified : Bool
  lastLoginAt : Option Nat
  createdAt : Nat
  updatedAt : SqlTime
deriving DecidableEq, Repr

/-- Embeds `User.ToResponse`. -/
def User.ToResponse (u : User) : UserResponse :=
  { id := u.id
    email := u.email
    username := u.username
    firstName := u.firstName
    lastName := u.lastName
    role := u.role
    status := u.status
    emailVerified := u.emailVerified
    lastLoginAt := u.lastLoginAt
    createdAt := u.createdAt
    updatedAt := u.updatedAt }

/-- Embeds `models.AuthResponse`. -/
structure AuthResponse where
  accessToken : SignedToken
  refreshToken : SignedToken
  expiresAt : Nat
  user : UserResponse
deriving DecidableEq, Repr

/-- A row of `email_verifications(user_id, token, expires_at, verified_at)`. -/
structure VerificationRow where
  userId : Nat
  token : String
  expiresAt : Nat
  verifiedAt : Option Nat
deriving DecidableEq, Repr

/-- A row of `password_resets(user_id, token, expires_at, used_at)`. -/
structure ResetRow where
  userId : Nat
  token : String
  expiresAt : Nat
  usedAt : Option Nat
deriving DecidableEq, Repr

/-- The relational store the auth service reads and writes, plus the
`users.id` sequence for `INSERT ... RETURNING id`. -/
structure DB where
  users : List User
  emailVerifications : List VerificationRow
  passwordResets : List ResetRow
  nextUserId : Nat
deriving DecidableEq, Repr

/-! ## GenerateTokenPair (internal/auth/jwt.go) -/

/-- Embeds `JWTService.GenerateTokenPair`: mint the access token (signed with the
access secret, type "access", 24h expiry) and the refresh token (refresh
secret, type "refresh", 7d expiry); returns both with the access expiry. -/
def GenerateTokenPair (j : JWTService) (now : Nat) (user : User) :
    SignedToken × SignedToken × Nat :=
  let accessExpiry := now + j.accessExpiry
  let refreshExpiry := now + j.refreshExpiry
  let accessClaims : Claims :=
    { userID := user.id
      email := user.email
      role := user.role
      tokenType := "access"
      expiresAt := accessExpiry
      issuedAt := now
      notBefore := now
      issuer := "bagr-auction-system"
      subject := "user:" ++ toString user.id }
  let refreshClaims : Claims :=
    { accessClaims with tokenType := "refresh", expiresAt := refreshExpiry }
  (⟨accessClaims, hmacSign j.accessSecret accessClaims⟩,
   ⟨refreshClaims, hmacSign j.refreshSecret refreshClaims⟩,
   accessExpiry)

/-! ## AuthService database helpers (internal/auth/service.go) -/

/-- The distinguishable errors the auth use cases return (each constructor
stands for one distinct Go error message or wrap). -/
inductive AuthErr
  | invalidCredentials   -- "invalid email or password"
  | accountNotActive     -- "account is not active"
  | emailNotVerified     -- "please verify your email before logging in"
  | emailExists          -- "user with this email already exists"
  | usernameTaken        -- "username already taken"
  | weakPassword (e : PasswordErr) -- "failed to hash password: ..."
  | sendResetFailed      -- "failed to send reset email: ..."
  | invalidOrExpiredToken -- "invalid or expired verification/reset token"
  | invalidRole          -- handler: "INVALID_ROLE"
  | invalidRequest       -- handler: "INVALID_REQUEST" (binding failure)
  | internalErr          -- wrapped persistence failure
deriving DecidableEq, Repr

/-- Embeds `getUserByEmail`: `SELECT ... FROM users WHERE email = $1`, first
matching row; `none` is `sql.ErrNoRows`. -/
def getUserByEmail (db : DB) (email : String) : Option User :=
  db.users.find? fun u => u.email == email

/-- Embeds `getUserByID`: `SELECT ... FROM users WHERE id = $1`. -/
def getUserByID (db : DB) (id : Nat) : Option User :=
  db.users.find? fun u => u.id == id

/-- Embeds `userExistsByEmail`: `SELECT COUNT(*) FROM users WHERE email = $1 > 0`. -/
def userExistsByEmail (db : DB) (email : String) : Bool :=
  db.users.any fun u => u.email == email

/-- Embeds `userExistsByUsername`. -/
def userExistsByUsername (db : DB) (username : String) : Bool :=
  db.users.any fun u => u.username == username

/-- Embeds `insertUser`: `INSERT INTO users ... RETURNING id` — the sequence
assigns the id. -/
def insertUser (db : DB) (user : User) : DB × Nat :=
  let userId := db.nextUserId
  ({ db with
      users := db.users ++ [{ user with id := userId }]
      nextUserId := userId + 1 },
   userId)

/-- Embeds `updateLastLogin`: set `last_login_at` and `updated_at` to `time.Now()`
where the id matches. -/
def updateLastLogin (db : DB) (userId : Nat) (now : Nat) : DB :=
  { db with
      users := db.users.map fun u =>
        if u.id == userId then
          { u with lastLoginAt := some now, updatedAt := .at now }
        else u }

/-- Embeds `updateEmailVerification`: set `email_verified` and `updated_at`. -/
def updateEmailVerification (db : DB) (userId : Nat) (verified : Bool)
    (now : Nat) : DB :=
  { db with
      users := db.users.map fun u =>
        if u.id == userId then
          { u with emailVerified := verified, updatedAt := .at now }
        else u }

/-- Embeds `updatePassword`: set `password_hash` and `updated_at`. -/
def updatePassword (db : DB) (userId : Nat) (hashed : BcryptHash)
    (now : Nat) : DB :=
  { db with
      users := db.users.map fun u =>
        if u.id == userId then
          { u with passwordHash := hashed, updatedAt := .at now }
        else u }

/-- Embeds `storeVerificationToken`: insert an `email_verifications` row with
`expires_at = now + 24h`. -/
def storeVerificationToken (db : DB) (userId : Nat) (token : String)
    (now : Nat) : DB :=
  { db with
      emailVerifications := db.emailVerifications ++
        [{ userId := userId, token := token,
           expiresAt := now + 24 * 3600, verifiedAt := none }] }

/-- Embeds `storeResetToken`: insert a `password_resets` row with the caller's
`expires_at`. -/
def storeResetToken (db : DB) (userId : Nat) (token : String)
    (expiresAt : Nat) : DB :=
  { db with
      passwordResets := db.passwordResets ++
        [{ userId := userId, token := token,
           expiresAt := expiresAt, usedAt := none }] }

/-- The two failure modes of the ephemeral-token redeemers. -/
inductive RedeemErr
  | noRows   -- sql.ErrNoRows: no unconsumed row with that token
  | expired  -- "token expired"
deriving DecidableEq, Repr

/-- Embeds `getVerificationUserID`: `SELECT user_id, expires_at FROM
email_verifications WHERE token = $1 AND verified_at IS NULL`; then fail
with Expired when `time.Now().After(expires_at)` — strictly after. -/
def getVerificationUserID (db : DB) (token : String) (now : Nat) :
    Except RedeemErr Nat :=
  match db.emailVerifications.find?
      (fun r => r.token == token && r.verifiedAt.isNone) with
  | none => .error .noRows
  | some r => if now > r.expiresAt then .error .expired else .ok r.userId

/-- Embeds `markVerificationTokenUsed`: `UPDATE email_verifications SET
verified_at = now WHERE token = $2` (every row with that token). -/
def markVerificationTokenUsed (db : DB) (token : String) (now : Nat) : DB :=
  { db with
      emailVerifications := db.emailVerifications.map fun r =>
        if r.token == token then { r with verifiedAt := some now } else r }

/-- Embeds `getResetTokenUserID`: same shape over `password_resets ... used_at
IS NULL`, with the same strict `After` expiry test. -/
def getResetTokenUserID (db : DB) (token : String) (now : Nat) :
    Except RedeemErr Nat :=
  match db.passwordResets.find?
      (fun r => r.token == token && r.usedAt.isNone) with
  | none => .error .noRows
  | some r => if now > r.expiresAt then .error .expired else .ok r.userId

/-- Embeds `markResetTokenUsed`. -/
def markResetTokenUsed (db : DB) (token : String) (now : Nat) : DB :=
  { db with
      passwordResets := db.passwordResets.map fun r =>
        if r.token == token then { r with usedAt := some now } else r }

/-! ## AuthService use cases (internal/auth/service.go) -/

/-- Embeds `models.LoginRequest`. -/
structure LoginRequest where
  email : String
  password : String
deriving DecidableEq, Repr

/-- Embeds `AuthService.LoginUser`, step for step: find by email (`ErrNoRows` →
generic invalid-credentials) → status must be active → verify password
(mismatch → same generic error) → email must be verified (→ distinct
error) → touch last login (failure non-fatal; the success path is
modelled) → issue the token pair from the fetched row. -/
def LoginUser (db : DB) (now : Nat) (j : JWTService) (req : LoginRequest) :
    DB × Except AuthErr AuthResponse :=
  match getUserByEmail db req.email with
  | none => (db, .error .invalidCredentials)
  | some user =>
    if user.status ≠ UserStatus.active then (db, .error .accountNotActive)
    else if !VerifyPassword user.passwordHash req.password then
      (db, .error .invalidCredentials)
    else if !user.emailVerified then (db, .error .emailNotVerified)
    else
      let db1 := updateLastLogin db user.id now
      let (access, refresh, expiresAt) := GenerateTokenPair j now user
      (db1, .ok { accessToken := access, refreshToken := refresh,
                  expiresAt := expiresAt, user := user.ToResponse })

/-- Embeds `models.CreateUserRequest`. -/
structure CreateUserRequest where
  email : String
  username : String
  firstName : String
  lastName : String
  password : String
  confirmPassword : String
  role : UserRole
deriving DecidableEq, Repr

/-- Embeds `AuthService.RegisterUser`: email-uniqueness check → username-
uniqueness check (distinct errors, both before the insert) → hash the
password → generate the verification token (the `genToken` argument) →
build the `models.User` (status active, email_verified false) → insert →
store the verification token (24h expiry) → send the verification email
(`sendOk`; failure logged, never fatal) → issue the token pair. -/
def RegisterUser (db : DB) (now : Nat) (j : JWTService) (salt : Nat)
    (genToken : String) (sendOk : Bool) (req : CreateUserRequest) :
    DB × Except AuthErr AuthResponse :=
  if userExistsByEmail db req.email then (db, .error .emailExists)
  else if userExistsByUsername db req.username then
    (db, .error .usernameTaken)
  else
    match HashPassword NewPasswordService salt req.password with
    | .error e => (db, .error (.weakPassword e))
    | .ok hashed =>
      let user : User :=
        { id := 0
          email := req.email
          username := req.username
          firstName := req.firstName
          lastName := req.lastName
          passwordHash := hashed
          role := req.role
          status := UserStatus.active
          emailVerified := false
          verificationToken := some genToken
          resetToken := none
          resetTokenExpires := none
          lastLoginAt := none
          createdAt := now
          updatedAt := .at now }
      let (db1, userId) := insertUser db user
      let user := { user with id := userId }
      let db2 := storeVerificationToken db1 userId genToken now
      -- sendOk: the verification email outcome; the result is the same
      -- either way (the code only logs the failure)
      let _ := sendOk
      let (access, refresh, expiresAt) := GenerateTokenPair j now user
      (db2, .ok { accessToken := access, refreshToken := refresh,
                  expiresAt := expiresAt, user := user.ToResponse })

/-- Embeds `AuthService.ForgotPassword`: find by email — absent emails succeed
silently with no state change; otherwise store a reset token expiring in
one hour (`now + 1h`) and send the reset email, whose failure IS
propagated to the caller. -/
def ForgotPassword (db : DB) (now : Nat) (email : String)
    (genToken : String) (sendOk : Bool) : DB × Except AuthErr Unit :=
  match getUserByEmail db email with
  | none => (db, .ok ())
  | some user =>
    let expiresAt := now + 3600
    let db1 := storeResetToken db user.id genToken expiresAt
    if sendOk then (db1, .ok ()) else (db1, .error .sendResetFailed)

/-- Embeds `AuthService.ResetPassword`: redeem the reset token (any failure →
"invalid or expired reset token", no state change) → hash the new
password → update the hash → mark the token used (non-fatal). -/
def ResetPassword (db : DB) (now : Nat) (token : String)
    (newPassword : String) (salt : Nat) : DB × Except AuthErr Unit :=
  match getResetTokenUserID db token now with
  | .error _ => (db, .error .invalidOrExpiredToken)
  | .ok userId =>
    match HashPassword NewPasswordService salt newPassword with
    | .error e => (db, .error (.weakPassword e))
    | .ok hashed =>
      let db1 := updatePassword db userId hashed now
      let db2 := markResetTokenUsed db1 token now
      (db2, .ok ())

/-- Embeds `AuthService.VerifyEmail`: redeem the verification token (any failure
→ "invalid or expired verification token", no state change) → set
email_verified → mark the token used (non-fatal) → fetch and return the
user (the welcome email's outcome is ignored). -/
def VerifyEmail (db : DB) (now : Nat) (token : String) :
    DB × Except AuthErr User :=
  match getVerificationUserID db token now with
  | .error _ => (db, .error .invalidOrExpiredToken)
  | .ok userId =>
    let db1 := updateEmailVerification db userId true now
    let db2 := markVerificationTokenUsed db1 token now
    match getUserByID db2 userId with
    | none => (db2, .error .internalErr)
    | some user => (db2, .ok user)

/-! ## Handlers (internal/auth/handlers.go) -/

/-- Embeds `isValidRole`: the handler's allow-list — `buyer` absent. -/
def isValidRole (role : UserRole) : Bool :=
  [UserRole.admin, UserRole.moderator, UserRole.producer,
   UserRole.artist, UserRole.fan].contains role

/-- Embeds `AuthHandlers.Register`: bind the JSON body (of the binding
validators only the role `oneof` list is modelled — the others constrain
fields no claim mentions) → check `isValidRole` → call `RegisterUser`. -/
def RegisterHandler (db : DB) (now : Nat) (j : JWTService) (salt : Nat)
    (genToken : String) (sendOk : Bool) (req : CreateUserRequest) :
    DB × Except AuthErr AuthResponse :=
  if !createUserRequestRoleOneOf.contains req.role then
    (db, .error .invalidRequest)
  else if !isValidRole req.role then (db, .error .invalidRole)
  else RegisterUser db now j salt genToken sendOk req

/-- Embeds `models.UpdateUserRequest` — the optional-field patch. -/
structure UpdateUserRequest where
  email : Option String
  username : Option String
  firstName : Option String
  lastName : Option String
  role : Option UserRole
  status : Option UserStatus
deriving DecidableEq, Repr

/-- One `column = $n` fragment of the dynamically built UPDATE. -/
inductive ColumnSet
  | email (v : String)
  | username (v : String)
  | firstName (v : String)
  | lastName (v : String)
  | role (v : UserRole)
  | status (v : UserStatus)
  | updatedAt (v : SqlTime)
deriving DecidableEq, Repr

/-- The `setParts`/`args` accumulation of `updateUserProfile`, field by
field in source order. -/
def buildSetParts (req : UpdateUserRequest) : List ColumnSet :=
  (match req.email with | some v => [ColumnSet.email v] | none => []) ++
  (match req.username with | some v => [ColumnSet.username v] | none => []) ++
  (match req.firstName with | some v => [ColumnSet.firstName v] | none => []) ++
  (match req.lastName with | some v => [ColumnSet.lastName v] | none => []) ++
  (match req.role with | some v => [ColumnSet.role v] | none => []) ++
  (match req.status with | some v => [ColumnSet.status v] | none => [])

/-- Apply one SET fragment to a row. -/
def applyColumn (u : User) (c : ColumnSet) : User :=
  match c with
  | .email v => { u with email := v }
  | .username v => { u with username := v }
  | .firstName v => { u with firstName := v }
  | .lastName v => { u with lastName := v }
  | .role v => { u with role := v }
  | .status v => { u with status := v }
  | .updatedAt v => { u with updatedAt := v }

/-- Embeds `UPDATE users SET <parts> WHERE id = $n`. -/
def execUpdate (db : DB) (userId : Nat) (sets : List ColumnSet) : DB :=
  { db with
      users := db.users.map fun u =>
        if u.id == userId then sets.foldl applyColumn u else u }

/-- Embeds `AuthService.updateUserProfile` (internal/auth/handlers.go): build the
SET fragments from the provided fields; when none are provided return at
once without touching the store; otherwise append
`updated_at = $n` bound to the literal argument string "NOW()" and run the
UPDATE on the matching id. -/
def updateUserProfile (db : DB) (userId : Nat) (req : UpdateUserRequest) :
    DB :=
  let setParts := buildSetParts req
  if setParts.isEmpty then db
  else execUpdate db userId (setParts ++ [ColumnSet.updatedAt (.text "NOW()")])

/-! ## Theorems -/

/-- C2: for every password accepted by the strength policy, hashing and
then verifying the same password succeeds, and verifying any different
password against that hash fails. (bcrypt is the symbolic salted hash
of the collaborator contract in spec §4.1.) -/
theorem hash_verify_roundtrip (password other : String) (salt : Nat)
    (hpol : ValidatePassword NewPasswordService password = .ok ()) :
    ∃ h, HashPassword NewPasswordService salt password = .ok h ∧
      VerifyPassword h password = true ∧
      (other ≠ password → VerifyPassword h other = false) := by
  refine ⟨{ salt := salt, digest := bcryptDigest salt password }, ?_, ?_, ?_⟩
  · simp [HashPassword, hpol]
  · simp [VerifyPassword]
  · intro hne
    simp only [VerifyPassword, bcryptDigest, beq_eq_false_iff_ne, ne_eq,
      Prod.mk.injEq, not_and]
    exact fun _ h => hne h.symm

/-- C2 witness: the round-trip at the concrete policy-passing password
"Passw0rd" with salt 3 and the distinct candidate "Xyzzy9aa". -/
theorem hash_verify_roundtrip_witness :
    ValidatePassword NewPasswordService "Passw0rd" = .ok () ∧
    ∃ h, HashPassword NewPasswordService 3 "Passw0rd" = .ok h ∧
      VerifyPassword h "Passw0rd" = true ∧
      ("Xyzzy9aa" ≠ "Passw0rd" → VerifyPassword h "Xyzzy9aa" = false) :=
  ⟨by decide, hash_verify_roundtrip "Passw0rd" "Xyzzy9aa" 3 (by decide)⟩

/-- C7 counterexample: the password "Aa1éééé" has 7 characters — fewer
than 8 — yet `ValidatePassword` accepts it and `Hash` hashes it: the
length rule measures Go `len(password)`, the UTF-8 byte count (11 here),
not the character count. -/
theorem password_length_bytes_cex :
    ("Aa1éééé" : String).length = 7 ∧
    goLen "Aa1éééé" = 11 ∧
    ValidatePassword NewPasswordService "Aa1éééé" = .ok () ∧
    HashPassword NewPasswordService 0 "Aa1éééé" =
      .ok { salt := 0, digest := bcryptDigest 0 "Aa1éééé" } := by decide

/-- C7 amended: `Hash` rejects every password shorter than 8 UTF-8 bytes
(Go `len`), or without an ASCII uppercase letter, or without an ASCII
lowercase letter, or without an ASCII digit, or equal (case-insensitively)
to a denylist entry; the rules fire in that order, each with its own
error. -/
theorem password_policy_rules (password : String) :
    (ValidatePassword NewPasswordService password = .error .tooShort ↔
      goLen password < 8) ∧
    (ValidatePassword NewPasswordService password = .error .noUpper ↔
      (¬ goLen password < 8 ∧ hasUpperCase password = false)) ∧
    (ValidatePassword NewPasswordService password = .error .noLower ↔
      (¬ goLen password < 8 ∧ hasUpperCase password = true ∧
        hasLowerCase password = false)) ∧
    (ValidatePassword NewPasswordService password = .error .noDigit ↔
      (¬ goLen password < 8 ∧ hasUpperCase password = true ∧
        hasLowerCase password = true ∧ hasDigit password = false)) ∧
    (ValidatePassword NewPasswordService password = .error .commonPassword ↔
      (¬ goLen password < 8 ∧ hasUpperCase password = true ∧
        hasLowerCase password = true ∧ hasDigit password = true ∧
        isCommonPassword password = true)) ∧
    ((goLen password < 8 ∨ hasUpperCase password = false ∨
        hasLowerCase password = false ∨ hasDigit password = false ∨
        isCommonPassword password = true) →
      ValidatePassword NewPasswordService password ≠ .ok ()) := by
  by_cases h1 : goLen password < 8 <;>
  by_cases h2 : hasUpperCase password <;>
  by_cases h3 : hasLowerCase password <;>
  by_cases h4 : hasDigit password <;>
  by_cases h5 : isCommonPassword password <;>
  simp_all [ValidatePassword, NewPasswordService] <;>
  simp_all [Nat.not_lt.mpr h1]

/-- C7 witness: the amended rule characterization applied at "short1A"
(7 bytes, rejected as too short) — the final rejection implication
discharged there. -/
theorem password_policy_rules_witness :
    ValidatePassword NewPasswordService "short1A" ≠ .ok () :=
  (password_policy_rules "short1A").2.2.2.2.2 (by decide)

/-- C9 (the code violating it): `GenerateResetToken` is a deterministic
function of the sampled `UnixNano` clock; two issuances whose 32 samples
coincide modulo 62 — e.g. a coarse clock stuck at 0, or at 62 — produce
the identical token "aaa…a", so tokens for one account need not be
distinct and the source is not cryptographically secure randomness. -/
theorem reset_token_collision :
    GenerateResetToken (fun _ => 0) = "aaaaaaaaaaaaaaaaaaaaaaaaaaaaaaaa" ∧
    GenerateResetToken (fun _ => 62) = "aaaaaaaaaaaaaaaaaaaaaaaaaaaaaaaa" ∧
    GenerateResetToken (fun _ => 0) = GenerateResetToken (fun _ => 62) := by
  decide

/-- C10: the registration handler accepts exactly admin, moderator,
producer, artist and fan — `isValidRole` rejects the legacy role `buyer`
with the invalid-role error although both the model's `UserRole`
enumeration and the request binding's `oneof` list include `buyer`. -/
theorem register_role_allowlist :
    isValidRole UserRole.buyer = false ∧
    userRoleValues.contains UserRole.buyer = true ∧
    createUserRequestRoleOneOf.contains UserRole.buyer = true ∧
    (∀ r, isValidRole r = true ↔
      (r = UserRole.admin ∨ r = UserRole.moderator ∨ r = UserRole.producer ∨
       r = UserRole.artist ∨ r = UserRole.fan)) ∧
    (∀ db now j salt genToken sendOk req, req.role = UserRole.buyer →
      RegisterHandler db now j salt genToken sendOk req =
        (db, Except.error AuthErr.invalidRole)) := by
  refine ⟨by decide, by decide, by decide, ?_, ?_⟩
  · intro r; cases r <;> decide
  · intro db now j salt genToken sendOk req hrole
    simp [RegisterHandler, hrole, isValidRole, createUserRequestRoleOneOf]

/-- The empty store, used by several concrete instances below. -/
def emptyDB : DB :=
  { users := [], emailVerifications := [], passwordResets := [],
    nextUserId := 1 }

/-- A registration request carrying the legacy role buyer. -/
def buyerReq : CreateUserRequest :=
  { email := "b@x.y", username := "bob", firstName := "B", lastName := "Y",
    password := "Passw0rd", confirmPassword := "Passw0rd",
    role := UserRole.buyer }

/-- C10 witness: a concrete registration request with role buyer is
rejected with the invalid-role error. -/
theorem register_role_allowlist_witness :
    RegisterHandler emptyDB 0 (NewJWTService "sa" "sb") 0 "tok" true
      buyerReq = (emptyDB, Except.error AuthErr.invalidRole) :=
  register_role_allowlist.2.2.2.2 emptyDB 0 (NewJWTService "sa" "sb") 0 "tok"
    true buyerReq rfl

/-- C1: login succeeds exactly when the account found by email is active,
the password verifies, and the email-verified flag is set; an unknown
email and a password mismatch (on an active account — the status gate
precedes the password check) raise the same generic invalid-credentials
error, while an unverified email raises the distinct verify-your-email
error. -/
theorem login_gate (db : DB) (now : Nat) (j : JWTService)
    (req : LoginRequest) :
    ((∃ resp, (LoginUser db now j req).2 = .ok resp) ↔
      (∃ u, getUserByEmail db req.email = some u ∧
        u.status = UserStatus.active ∧
        VerifyPassword u.passwordHash req.password = true ∧
        u.emailVerified = true)) ∧
    (getUserByEmail db req.email = none →
      (LoginUser db now j req).2 = .error .invalidCredentials) ∧
    (∀ u, getUserByEmail db req.email = some u →
      u.status = UserStatus.active →
      VerifyPassword u.passwordHash req.password = false →
      (LoginUser db now j req).2 = .error .invalidCredentials) ∧
    (∀ u, getUserByEmail db req.email = some u →
      u.status = UserStatus.active →
      VerifyPassword u.passwordHash req.password = true →
      u.emailVerified = false →
      (LoginUser db now j req).2 = .error .emailNotVerified) ∧
    AuthErr.emailNotVerified ≠ AuthErr.invalidCredentials := by
  cases h : getUserByEmail db req.email with
  | none => simp [LoginUser, h]
  | some u =>
    by_cases hs : u.status = UserStatus.active <;>
    by_cases hp : VerifyPassword u.passwordHash req.password <;>
    by_cases hv : u.emailVerified <;>
    simp_all [LoginUser, h]

/-- A single concrete verified-active account, stored with the symbolic
bcrypt hash of "Passw0rd" under salt 5. -/
def aliceUser : User :=
  { id := 1
    email := "alice@example.com"
    username := "alice"
    firstName := "Alice"
    lastName := "A"
    passwordHash := { salt := 5, digest := bcryptDigest 5 "Passw0rd" }
    role := UserRole.fan
    status := UserStatus.active
    emailVerified := true
    verificationToken := none
    resetToken := none
    resetTokenExpires := none
    lastLoginAt := none
    createdAt := 0
    updatedAt := .at 0 }

/-- A store holding exactly `aliceUser`. -/
def aliceDB : DB :=
  { users := [aliceUser], emailVerifications := [], passwordResets := [],
    nextUserId := 2 }

/-- C1 witness: the mismatch clause of the login gate discharged at the
concrete store — a wrong password for alice yields the generic
invalid-credentials error. -/
theorem login_gate_witness :
    (LoginUser aliceDB 10 (NewJWTService "sa" "sb")
        { email := "alice@example.com", password := "WrongPw1" }).2 =
      .error .invalidCredentials :=
  (login_gate aliceDB 10 (NewJWTService "sa" "sb")
      { email := "alice@example.com", password := "WrongPw1" }).2.2.1
    aliceUser (by decide) (by decide) (by decide)

/-- C5: forgot-password for an unknown email succeeds with the store
unchanged (no reset token created); for an existing account it appends
exactly one unconsumed reset row expiring at now + 1 hour, and a failed
reset email is propagated as an error while a delivered one yields
success. -/
theorem forgot_password_spec (db : DB) (now : Nat) (email : String)
    (genToken : String) (sendOk : Bool) :
    (getUserByEmail db email = none →
      ForgotPassword db now email genToken sendOk = (db, .ok ())) ∧
    (∀ u, getUserByEmail db email = some u →
      ((ForgotPassword db now email genToken sendOk).1 =
        { db with passwordResets := db.passwordResets ++
            [{ userId := u.id, token := genToken, expiresAt := now + 3600,
               usedAt := none }] }) ∧
      (sendOk = false →
        (ForgotPassword db now email genToken sendOk).2 =
          .error .sendResetFailed) ∧
      (sendOk = true →
        (ForgotPassword db now email genToken sendOk).2 = .ok ())) := by
  cases h : getUserByEmail db email with
  | none => simp [ForgotPassword, h]
  | some u => cases sendOk <;> simp [ForgotPassword, h, storeResetToken]

/-- C5 witness: both live branches at the concrete store — unknown email
leaves the store untouched and succeeds; alice's email with a failing
mailer stores the one-hour token yet reports the send failure. -/
theorem forgot_password_spec_witness :
    ForgotPassword aliceDB 50 "nobody@example.com" "rtok" true =
      (aliceDB, .ok ()) ∧
    ((ForgotPassword aliceDB 50 "alice@example.com" "rtok" false).1 =
      { aliceDB with passwordResets :=
          [{ userId := 1, token := "rtok", expiresAt := 3650,
             usedAt := none }] }) ∧
    (ForgotPassword aliceDB 50 "alice@example.com" "rtok" false).2 =
      .error .sendResetFailed := by
  refine ⟨(forgot_password_spec aliceDB 50 "nobody@example.com" "rtok"
      true).1 (by decide), ?_, ?_⟩
  · have h := ((forgot_password_spec aliceDB 50 "alice@example.com" "rtok"
      false).2 aliceUser (by decide)).1
    simpa [aliceDB, aliceUser] using h
  · exact ((forgot_password_spec aliceDB 50 "alice@example.com" "rtok"
      false).2 aliceUser (by decide)).2.1 rfl

/-- C6: registration fails fast with a distinct error on a taken email or
(checked second, still before any insert — the store is returned
unchanged) a taken username; on success the inserted account and the
returned view have email_verified false and status active, and the
verification email's outcome does not affect the result. -/
theorem register_user_spec (db : DB) (now : Nat) (j : JWTService)
    (salt : Nat) (genToken : String) (sendOk : Bool)
    (req : CreateUserRequest) :
    (userExistsByEmail db req.email = true →
      RegisterUser db now j salt genToken sendOk req =
        (db, .error .emailExists)) ∧
    (userExistsByEmail db req.email = false →
      userExistsByUsername db req.username = true →
      RegisterUser db now j salt genToken sendOk req =
        (db, .error .usernameTaken)) ∧
    AuthErr.emailExists ≠ AuthErr.usernameTaken ∧
    (userExistsByEmail db req.email = false →
      userExistsByUsername db req.username = false →
      ValidatePassword NewPasswordService req.password = .ok () →
      ∃ resp, (RegisterUser db now j salt genToken sendOk req).2 = .ok resp ∧
        resp.user.emailVerified = false ∧
        resp.user.status = UserStatus.active ∧
        ∃ u, (RegisterUser db now j salt genToken sendOk req).1.users =
            db.users ++ [u] ∧
          u.emailVerified = false ∧ u.status = UserStatus.active) ∧
    RegisterUser db now j salt genToken true req =
      RegisterUser db now j salt genToken false req := by
  refine ⟨?_, ?_, by simp, ?_, rfl⟩
  · intro he; simp [RegisterUser, he]
  · intro he hu; simp [RegisterUser, he, hu]
  · intro he hu hpw
    simp [RegisterUser, he, hu, HashPassword, hpw, insertUser,
      storeVerificationToken, User.ToResponse]

/-- C6 witness: registering bob into the store that holds only alice
succeeds with an unverified active account, the same way whether or not
the verification email could be sent. -/
theorem register_user_spec_witness :
    ∃ resp, (RegisterUser aliceDB 0 (NewJWTService "sa" "sb") 9 "vtok" true
        { email := "b@x.y", username := "bob", firstName := "B",
          lastName := "Y", password := "Str0ngPw",
          confirmPassword := "Str0ngPw", role := UserRole.artist }).2 =
      .ok resp ∧
      resp.user.emailVerified = false ∧
      resp.user.status = UserStatus.active ∧
      ∃ u, (RegisterUser aliceDB 0 (NewJWTService "sa" "sb") 9 "vtok" true
          { email := "b@x.y", username := "bob", firstName := "B",
            lastName := "Y", password := "Str0ngPw",
            confirmPassword := "Str0ngPw", role := UserRole.artist }).1.users =
        aliceDB.users ++ [u] ∧
        u.emailVerified = false ∧ u.status = UserStatus.active :=
  (register_user_spec aliceDB 0 (NewJWTService "sa" "sb") 9 "vtok" true
      { email := "b@x.y", username := "bob", firstName := "B",
        lastName := "Y", password := "Str0ngPw",
        confirmPassword := "Str0ngPw", role := UserRole.artist }).2.2.2.1
    (by decide) (by decide) (by decide)

/-- C3 counterexample: under the service's two distinct secrets,
validating the refresh token of an issued pair as an access token fails at
the signature-parsing step — not with the wrong-type error the claim
names: the wrong-type check is only reached once the signature verifies
under the access secret. -/
theorem validate_access_on_refresh_cex :
    ValidateAccessToken (NewJWTService "access-secret-a" "refresh-secret-b")
      (GenerateTokenPair (NewJWTService "access-secret-a" "refresh-secret-b")
        0 aliceUser).2.1 0 = .error .parseFailed ∧
    TokenErr.parseFailed ≠ TokenErr.wrongType := by decide

/-- C3 amended: validating the refresh token of an issued pair as an
access token is always rejected — with the invalid-signature parse error
whenever the two secrets differ, and with the wrong-type error exactly in
the regime where the signature verifies under the access secret (equal
secrets, token not yet expired); any token signed with one secret and
validated against a different one fails with the invalid-signature parse
error; and both validators reject the other discriminator's token of a
pair outright. -/
theorem token_cross_validation (j : JWTService) (now t : Nat) (u : User) :
    (j.accessSecret ≠ j.refreshSecret →
      ValidateAccessToken j (GenerateTokenPair j now u).2.1 t =
        .error .parseFailed) ∧
    (j.accessSecret = j.refreshSecret → t ≤ now + j.refreshExpiry →
      ValidateAccessToken j (GenerateTokenPair j now u).2.1 t =
        .error .wrongType) ∧
    (∀ (c : Claims) (s s' ty : String), s ≠ s' →
      validateToken ⟨c, hmacSign s c⟩ s' ty t = .error .parseFailed) ∧
    (ValidateAccessToken j (GenerateTokenPair j now u).2.1 t).toOption =
      none ∧
    (ValidateRefreshToken j (GenerateTokenPair j now u).1 t).toOption =
      none := by
  refine ⟨?_, ?_, ?_, ?_, ?_⟩
  · intro hne
    simp [ValidateAccessToken, validateToken, GenerateTokenPair, hmacSign,
      Prod.ext_iff, Ne.symm hne]
  · intro heq ht
    simp [ValidateAccessToken, validateToken, GenerateTokenPair, hmacSign,
      Prod.ext_iff, heq, Nat.not_lt.mpr ht]
  · intro c s s' ty hne
    simp [validateToken, hmacSign, Prod.ext_iff, hne]
  · by_cases hsec : j.accessSecret = j.refreshSecret
    · by_cases hexp : now + j.refreshExpiry < t <;>
        simp [ValidateAccessToken, validateToken, GenerateTokenPair,
          hmacSign, Prod.ext_iff, hsec, hexp, Except.toOption]
    · simp [ValidateAccessToken, validateToken, GenerateTokenPair,
        hmacSign, Prod.ext_iff, Ne.symm hsec, Except.toOption]
  · by_cases hsec : j.accessSecret = j.refreshSecret
    · by_cases hexp : now + j.accessExpiry < t <;>
        simp [ValidateRefreshToken, validateToken, GenerateTokenPair,
          hmacSign, Prod.ext_iff, hsec, hexp, Except.toOption]
    · simp [ValidateRefreshToken, validateToken, GenerateTokenPair,
        hmacSign, Prod.ext_iff, hsec, Except.toOption]

/-- C3 witness: the amended statement at concrete distinct secrets (the
parse-failure clause) and at concrete equal secrets (the wrong-type
clause), both on alice's pair issued at time 0 and validated at time 0. -/
theorem token_cross_validation_witness :
    ValidateAccessToken (NewJWTService "sa" "sb")
      (GenerateTokenPair (NewJWTService "sa" "sb") 0 aliceUser).2.1 0 =
        .error .parseFailed ∧
    ValidateAccessToken (NewJWTService "s" "s")
      (GenerateTokenPair (NewJWTService "s" "s") 0 aliceUser).2.1 0 =
        .error .wrongType :=
  ⟨(token_cross_validation (NewJWTService "sa" "sb") 0 0 aliceUser).1
      (by decide),
   (token_cross_validation (NewJWTService "s" "s") 0 0 aliceUser).2.1
      rfl (by decide)⟩

/-- A store holding one unconsumed verification row and one unconsumed
reset row for account 7, both with token "t" expiring at time 5. -/
def ephemeralDB : DB :=
  { users := []
    emailVerifications :=
      [{ userId := 7, token := "t", expiresAt := 5, verifiedAt := none }]
    passwordResets :=
      [{ userId := 7, token := "t", expiresAt := 5, usedAt := none }]
    nextUserId := 1 }

/-- Same rows but already consumed. -/
def consumedDB : DB :=
  { users := []
    emailVerifications :=
      [{ userId := 7, token := "t", expiresAt := 5, verifiedAt := some 2 }]
    passwordResets :=
      [{ userId := 7, token := "t", expiresAt := 5, usedAt := some 2 }]
    nextUserId := 1 }

/-- C4 counterexample: at the instant `now = expires_at` — so with
`now() >= expires_at` — both redeemers still return the owning account id
instead of failing with Expired: the code's `time.Now().After(expiresAt)`
is a strict comparison. -/
theorem redeem_boundary_cex :
    (∀ r ∈ ephemeralDB.passwordResets, 5 ≥ r.expiresAt) ∧
    (∀ r ∈ ephemeralDB.emailVerifications, 5 ≥ r.expiresAt) ∧
    getResetTokenUserID ephemeralDB "t" 5 = .ok 7 ∧
    getVerificationUserID ephemeralDB "t" 5 = .ok 7 := by decide

/-- C4 amended: redeeming strictly after expiry (`now > expires_at`)
fails with Expired and — via the orchestrators — leaves the store
untouched, so nothing is consumed; when every row carrying the token is
already consumed the redeemer fails with the ErrNoRows not-found error;
an unconsumed row with `now <= expires_at` redeems to its owning account
id. Both the reset and the verification redeemer behave this way. -/
theorem redeem_spec (db : DB) (token : String) (now : Nat) :
    ((∀ r ∈ db.passwordResets, r.token = token → r.usedAt.isSome) →
      getResetTokenUserID db token now = .error .noRows) ∧
    (∀ r, db.passwordResets.find?
        (fun r => r.token == token && r.usedAt.isNone) = some r →
      (now > r.expiresAt →
        getResetTokenUserID db token now = .error .expired ∧
        ∀ newPassword salt,
          (ResetPassword db now token newPassword salt).1 = db) ∧
      (now ≤ r.expiresAt →
        getResetTokenUserID db token now = .ok r.userId)) ∧
    ((∀ r ∈ db.emailVerifications, r.token = token → r.verifiedAt.isSome) →
      getVerificationUserID db token now = .error .noRows) ∧
    (∀ r, db.emailVerifications.find?
        (fun r => r.token == token && r.verifiedAt.isNone) = some r →
      (now > r.expiresAt →
        getVerificationUserID db token now = .error .expired ∧
        (VerifyEmail db now token).1 = db) ∧
      (now ≤ r.expiresAt →
        getVerificationUserID db token now = .ok r.userId)) := by
  refine ⟨?_, ?_, ?_, ?_⟩
  · intro h
    have hnone : db.passwordResets.find?
        (fun r => r.token == token && r.usedAt.isNone) = none := by
      rw [List.find?_eq_none]
      intro r hr
      by_cases ht : r.token = token
      · have hs := h r hr ht
        cases hu : r.usedAt <;> simp_all
      · simp [ht]
    simp [getResetTokenUserID, hnone]
  · intro r hfind
    refine ⟨fun hexp => ⟨?_, fun newPassword salt => ?_⟩, fun hle => ?_⟩
    · simp [getResetTokenUserID, hfind, hexp]
    · simp [ResetPassword, getResetTokenUserID, hfind, hexp]
    · simp [getResetTokenUserID, hfind, Nat.not_lt.mpr hle]
  · intro h
    have hnone : db.emailVerifications.find?
        (fun r => r.token == token && r.verifiedAt.isNone) = none := by
      rw [List.find?_eq_none]
      intro r hr
      by_cases ht : r.token = token
      · have hs := h r hr ht
        cases hu : r.verifiedAt <;> simp_all
      · simp [ht]
    simp [getVerificationUserID, hnone]
  · intro r hfind
    refine ⟨fun hexp => ⟨?_, ?_⟩, fun hle => ?_⟩
    · simp [getVerificationUserID, hfind, hexp]
    · simp [VerifyEmail, getVerificationUserID, hfind, hexp]
    · simp [getVerificationUserID, hfind, Nat.not_lt.mpr hle]

/-- C4 witness: the amended statement at the concrete stores — consumed
rows give the not-found error; at time 6 (strictly past the expiry 5) both
redeemers report Expired and `ResetPassword`/`VerifyEmail` leave the store
unchanged; at time 4 both redeem to account 7. -/
theorem redeem_spec_witness :
    getResetTokenUserID consumedDB "t" 3 = .error .noRows ∧
    getVerificationUserID consumedDB "t" 3 = .error .noRows ∧
    getResetTokenUserID ephemeralDB "t" 6 = .error .expired ∧
    (ResetPassword ephemeralDB 6 "t" "NewPassw0rd" 2).1 = ephemeralDB ∧
    getVerificationUserID ephemeralDB "t" 6 = .error .expired ∧
    (VerifyEmail ephemeralDB 6 "t").1 = ephemeralDB ∧
    getResetTokenUserID ephemeralDB "t" 4 = .ok 7 ∧
    getVerificationUserID ephemeralDB "t" 4 = .ok 7 := by
  have hr := (redeem_spec ephemeralDB "t" 6).2.1
    { userId := 7, token := "t", expiresAt := 5, usedAt := none } (by decide)
  have hv := (redeem_spec ephemeralDB "t" 6).2.2.2
    { userId := 7, token := "t", expiresAt := 5, verifiedAt := none }
    (by decide)
  refine ⟨(redeem_spec consumedDB "t" 3).1 (by decide),
    (redeem_spec consumedDB "t" 3).2.2.1 (by decide),
    (hr.1 (by decide)).1, (hr.1 (by decide)).2 "NewPassw0rd" 2,
    (hv.1 (by decide)).1, (hv.1 (by decide)).2,
    ?_, ?_⟩
  · exact ((redeem_spec ephemeralDB "t" 4).2.1
      { userId := 7, token := "t", expiresAt := 5, usedAt := none }
      (by decide)).2 (by decide)
  · exact ((redeem_spec ephemeralDB "t" 4).2.2.2
      { userId := 7, token := "t", expiresAt := 5, verifiedAt := none }
      (by decide)).2 (by decide)

/-- Whether the patch provides at least one field. -/
def hasAnyField (req : UpdateUserRequest) : Bool :=
  req.email.isSome || req.username.isSome || req.firstName.isSome ||
    req.lastName.isSome || req.role.isSome || req.status.isSome

/-- The SET-fragment list is empty exactly when the patch provides no
field. -/
theorem buildSetParts_empty (req : UpdateUserRequest) :
    (buildSetParts req).isEmpty = !hasAnyField req := by
  obtain ⟨e, un, f, l, r, s⟩ := req
  cases e <;> cases un <;> cases f <;> cases l <;> cases r <;> cases s <;>
    rfl

/-- Folding the built SET fragments (with the trailing `updated_at`
assignment) over a row sets exactly the provided fields and the
`updated_at` column. -/
theorem buildSetParts_foldl (req : UpdateUserRequest) (u : User) :
    applyColumn ((buildSetParts req).foldl applyColumn u)
        (ColumnSet.updatedAt (SqlTime.text "NOW()")) =
      { u with
          email := req.email.getD u.email
          username := req.username.getD u.username
          firstName := req.firstName.getD u.firstName
          lastName := req.lastName.getD u.lastName
          role := req.role.getD u.role
          status := req.status.getD u.status
          updatedAt := SqlTime.text "NOW()" } := by
  obtain ⟨e, un, f, l, r, s⟩ := req
  cases e <;> cases un <;> cases f <;> cases l <;> cases r <;> cases s <;>
    rfl

/-- An empty patch. -/
def emptyPatch : UpdateUserRequest :=
  { email := none, username := none, firstName := none, lastName := none,
    role := none, status := none }

/-- A patch providing only the first name. -/
def namePatch : UpdateUserRequest :=
  { emptyPatch with firstName := some "X" }

/-- C8 counterexample: an empty patch leaves the store — alice's
`updated_at` included — completely unchanged (the code returns before
building any UPDATE), refuting "always bumps updated_at, including when
the patch provides no fields"; and a non-empty patch assigns `updated_at`
the literal parameter string "NOW()", not a computed timestamp. -/
theorem update_profile_cex :
    updateUserProfile aliceDB 1 emptyPatch = aliceDB ∧
    aliceUser.updatedAt = SqlTime.at 0 ∧
    (updateUserProfile aliceDB 1 namePatch).users =
      [{ aliceUser with
          firstName := "X",
          updatedAt := SqlTime.text "NOW()" }] := by decide

/-- C8 amended: when the patch provides no fields the update is skipped
entirely and no column changes, `updated_at` included; when it provides at
least one field, the matching row gets exactly the provided fields, every
other column of the row is preserved, other rows and tables are untouched,
and `updated_at` is assigned the literal parameter string "NOW()" (the
code binds that string, not a timestamp). -/
theorem update_profile_frame (db : DB) (userId : Nat)
    (req : UpdateUserRequest) :
    (hasAnyField req = false → updateUserProfile db userId req = db) ∧
    (hasAnyField req = true →
      (updateUserProfile db userId req).emailVerifications =
        db.emailVerifications ∧
      (updateUserProfile db userId req).passwordResets =
        db.passwordResets ∧
      (updateUserProfile db userId req).nextUserId = db.nextUserId ∧
      (updateUserProfile db userId req).users = db.users.map fun u =>
        if u.id == userId then
          { u with
              email := req.email.getD u.email
              username := req.username.getD u.username
              firstName := req.firstName.getD u.firstName
              lastName := req.lastName.getD u.lastName
              role := req.role.getD u.role
              status := req.status.getD u.status
              updatedAt := SqlTime.text "NOW()" }
        else u) := by
  constructor
  · intro h
    have he : (buildSetParts req).isEmpty = true := by
      rw [buildSetParts_empty, h]; rfl
    simp [updateUserProfile, he]
  · intro h
    have he : (buildSetParts req).isEmpty = false := by
      rw [buildSetParts_empty, h]; rfl
    simp [updateUserProfile, he, execUpdate, buildSetParts_foldl]

/-- C8 witness: the amended frame statement at the concrete store — the
empty patch is the identity, and the first-name patch rewrites exactly
alice's row. -/
theorem update_profile_frame_witness :
    updateUserProfile aliceDB 1 emptyPatch = aliceDB ∧
    (updateUserProfile aliceDB 1 namePatch).users = aliceDB.users.map
      (fun u =>
        if u.id == 1 then
          { u with
              email := namePatch.email.getD u.email
              username := namePatch.username.getD u.username
              firstName := namePatch.firstName.getD u.firstName
              lastName := namePatch.lastName.getD u.lastName
              role := namePatch.role.getD u.role
              status := namePatch.status.getD u.status
              updatedAt := SqlTime.text "NOW()" }
        else u) :=
  ⟨(update_profile_frame aliceDB 1 emptyPatch).1 rfl,
   ((update_profile_frame aliceDB 1 namePatch).2 rfl).2.2.2⟩

end BAGR
